import Mathlib

/-!
Verification of the THCI NCP transport and session layer (`thci_module_ncp.c`,
`thci_module_ncp_uart.cpp`) against its natural-language specification.

The definitions below are a shallow embedding of the relevant C functions:
pointers into the outbound ring buffer are modelled as byte offsets from the
start of the array, machine integers as `Nat` with explicit `% 2 ^ w` where the
C arithmetic can wrap, and global mutable state as explicit state records that
each operation consumes and returns.
-/

namespace Thci

/-! ### Configuration constants (thci_default_config.h, thci_module.h) -/

/-- `NL_THCI_PAYLOAD_MTU` (thci_module.h line 40). -/
def NL_THCI_PAYLOAD_MTU : Nat := 1280

/-- `THCI_CONFIG_NCP_TX_MESSAGE_RING_BUFFER_SIZE = 5 * NL_THCI_PAYLOAD_MTU`
(thci_default_config.h lines 73-75). -/
def RING_BUFFER_SIZE : Nat := 5 * NL_THCI_PAYLOAD_MTU

/-- `THCI_CONFIG_MESSAGE_QUEUE_SIZE` (thci_default_config.h lines 62-64). -/
def MESSAGE_QUEUE_SIZE : Nat := 16

/-- `sizeof(thci_message_t)` on the 32-bit embedded target: a 4-byte buffer
pointer followed by `mOffset`, `mLength`, `mTotalLength` (uint16 each),
`mFlags` and `mReserved` (uint8 each); the trailing `mReserved` pads the
struct to a 4-byte multiple (thci_module_ncp.h lines 53-61). -/
def MSG_HEADER_SIZE : Nat := 12

/-- `kMaxTransactionId` (thci_module_ncp.c line 74). -/
def kMaxTransactionId : Nat := 0x0f

/-- `kDontCareTransactionId` (thci_module_ncp.c line 75). -/
def kDontCareTransactionId : Nat := 0x01

/-! ### Outbound message store (`NewMessage` / `FreeMessage`, thci_module_ncp.c)

`mMessageRingHead`, `mMessageRingTail` are modelled as byte offsets from
`ringStart`; `ringEnd` corresponds to offset `RING_BUFFER_SIZE`. -/

/-- The ring-pointer part of `gTHCINCPContext` used by the outbound store:
`mMessageRingHead`, `mMessageRingTail`, `mMessageRingEndGap`, and
`mWaitFreeQueueEmpty`. -/
structure RingState where
  head : Nat
  tail : Nat
  endGap : Nat
  waitFreeQueueEmpty : Bool
  deriving Repr, DecidableEq

/-- The aligned allocation size computed at the top of `NewMessage`
(thci_module_ncp.c lines 475-479): `aLength += sizeof(thci_message_t)` then
round up to a 4-byte multiple.  `aLength` is a `uint16_t`, so both updates
wrap modulo `2^16`. -/
def alignedSize (aLength : Nat) : Nat :=
  let l := (aLength + MSG_HEADER_SIZE) % 65536
  (l + ((4 - l % 4) % 4)) % 65536

/-- `NewMessage` (thci_module_ncp.c lines 453-520), with the lock acquisition
elided (the lock serializes callers; the body runs atomically under it).
Returns the byte offset of the allocated message (`retval`) together with the
updated ring state; `none` models the `NULL` return when no run fits. -/
def NewMessage (s : RingState) (aLength : Nat) : Option Nat × RingState :=
  -- head and tail are reset to ringStart whenever they are found to be equal.
  let s := if s.head = s.tail then { s with head := 0, tail := 0 } else s
  -- terminating point at the end of the ring buffer.
  let termEnd : Nat := if s.head < s.tail then s.tail else RING_BUFFER_SIZE
  -- termination point at the start of the ring buffer (NULL when head ≤ tail).
  let termStart : Option Nat := if s.head > s.tail then some s.tail else none
  let len := alignedSize aLength
  if len + s.head < termEnd then
    (some s.head, { s with head := s.head + len })
  else
    match termStart with
    | some t =>
        if len + 0 < t then
          (some 0, { s with endGap := RING_BUFFER_SIZE - s.head, head := 0 + len })
        else
          (none, s)
    | none => (none, s)

/-- Result of `FreeMessage`: the updated ring state, whether the release was
accepted (the `nlREQUIRE_ACTION` head-or-tail check passed), and whether a
wake event was posted to `mWaitFreeQueue`. -/
structure FreeResult where
  state : RingState
  accepted : Bool
  posted : Bool
  deriving Repr, DecidableEq

/-- The ring-pointer update performed by an accepted `FreeMessage` (the
`if (messageHead == mMessageRingTail) ... else ...` block, thci_module_ncp.c
lines 538-560): advance the tail (skipping the end-gap once reached) or
rewind the head (restoring it past the end-gap when the rewind lands at the
array base). -/
def freeAdvance (s : RingState) (msgOff totalLength : Nat) : RingState :=
  if msgOff = s.tail then
    -- move the tail forward.
    let t := s.tail + totalLength
    if RING_BUFFER_SIZE ≤ t + s.endGap then
      -- advance the tail beyond the end-gap.
      { s with tail := 0, endGap := 0 }
    else
      { s with tail := t }
  else
    -- move the head backward.
    if msgOff = 0 ∧ s.endGap ≠ 0 then
      { s with head := RING_BUFFER_SIZE - s.endGap, endGap := 0 }
    else
      { s with head := msgOff }

/-- `FreeMessage` (thci_module_ncp.c lines 522-576).  `msgOff` is the byte
offset of the freed message (`messageHead`) and `totalLength` its
`mTotalLength` field. -/
def FreeMessage (s : RingState) (msgOff totalLength : Nat) : FreeResult :=
  if msgOff = s.tail ∨ msgOff + totalLength = s.head then
    let s1 := freeAdvance s msgOff totalLength
    if s1.waitFreeQueueEmpty then
      ⟨{ s1 with waitFreeQueueEmpty := false }, true, true⟩
    else
      ⟨s1, true, false⟩
  else
    ⟨s, false, false⟩

/-! ### Trace semantics of the store under the tail-or-head discipline -/

/-- One client operation against the outbound store.  `alloc` is a
`NewMessage` call with the given payload length; `freeOldest` / `freeNewest`
are `FreeMessage` calls on the oldest (ring tail) / newest (ring head) live
message, i.e. the releases permitted by the discipline. -/
inductive StoreOp where
  | alloc (payload : Nat)
  | freeOldest
  | freeNewest
  deriving Repr, DecidableEq

/-- The store together with the list of live messages, newest first; each
live message is recorded as `(offset, mTotalLength)`. -/
structure StoreState where
  ring : RingState
  live : List (Nat × Nat)
  deriving Repr, DecidableEq

/-- The store as it exists after initialization: all ring context fields
zeroed (`gTHCINCPContext` is a zero-initialized global). -/
def initStore : StoreState := ⟨⟨0, 0, 0, false⟩, []⟩

/-- Total bytes of live allocations (each message's `mTotalLength`). -/
def StoreState.liveBytes (st : StoreState) : Nat :=
  (st.live.map Prod.snd).sum

/-- Run one `StoreOp` against the store. -/
def stepOp (st : StoreState) (op : StoreOp) : StoreState :=
  match op with
  | .alloc payload =>
      match NewMessage st.ring payload with
      | (some off, r) => ⟨r, (off, alignedSize payload) :: st.live⟩
      | (none, r) => ⟨r, st.live⟩
  | .freeOldest =>
      match st.live.getLast? with
      | some (off, len) => ⟨(FreeMessage st.ring off len).state, st.live.dropLast⟩
      | none => st
  | .freeNewest =>
      match st.live with
      | (off, len) :: rest => ⟨(FreeMessage st.ring off len).state, rest⟩
      | [] => st

/-- Run a sequence of store operations. -/
def runOps (st : StoreState) (ops : List StoreOp) : StoreState :=
  ops.foldl stepOp st

/-! ### Transaction identifiers (`GetNewTransactionId`, thci_module_ncp.c) -/

/-- `GetNewTransactionId` (thci_module_ncp.c lines 394-412).  The argument is
the current `gTHCINCPContext.mTransactionId` (a `uint8_t`); the result is both
the value returned and the new counter value. -/
def GetNewTransactionId (mTransactionId : Nat) : Nat :=
  let newId := (mTransactionId + 1) % 256
  let kMinTransactionId := kDontCareTransactionId + 1
  let newId := if kMaxTransactionId ≤ newId then kMinTransactionId else newId
  let newId := if newId < kMinTransactionId then kMinTransactionId else newId
  newId

/-! ### Spinel constants used by the matcher and dispatcher

Numeric values of the Spinel command / property-key dictionary come from the
external OpenThread `spinel.h` header (the repository only uses the names);
the values match the published Spinel protocol and the spec's §6 scenarios
(`cmd=0x02` property-value-get, `cmd=0x06` property-value-is). On the wire a
key is a packed unsigned integer, modelled as `Nat`. -/

def SPINEL_CMD_PROP_VALUE_GET : Nat := 2
def SPINEL_CMD_PROP_VALUE_SET : Nat := 3
def SPINEL_CMD_PROP_VALUE_IS : Nat := 6
def SPINEL_CMD_PROP_VALUE_INSERTED : Nat := 7
def SPINEL_PROP_LAST_STATUS : Nat := 0
def SPINEL_PROP_STREAM_NET : Nat := 0x72
def SPINEL_PROP_STREAM_NET_INSECURE : Nat := 0x73

/-- `SPINEL_STATUS_RESET__BEGIN` (spinel.h status enum): first value of the
reset-reason status block. -/
def SPINEL_STATUS_RESET_BEGIN : Nat := 112

/-- `SPINEL_STATUS_RESET__END` (spinel.h status enum, value 128); the source
compares with `status <= SPINEL_STATUS_RESET__END`. -/
def SPINEL_STATUS_RESET_END : Nat := 128

/-- `spinel_packed_uint_decode` (external spinel library), the decoder behind
`spinel_datatype_unpack(..., SPINEL_DATATYPE_UINT_PACKED_S, ...)`: a
little-endian base-128 varint, the high bit of each byte marking
continuation; `none` models the failure return on a truncated encoding (the
32-bit overflow guard is not modelled). -/
def parseUintPacked : List Nat → Option Nat
  | [] => none
  | b :: rest =>
      if b % 256 < 128 then
        some (b % 256)
      else
        match parseUintPacked rest with
        | some v => some (b % 256 - 128 + 128 * v)
        | none => none

/-! ### Session supervisor state and recovery
(`thciInitiateNCPRecovery`, thci_module_ncp.c lines 2668-2681) -/

/-- `module_state_t` (thci_module_ncp.h lines 78-83). -/
inductive ModuleState where
  | uninitializedState
  | initializedState
  | resetRecovery
  | hostSleep
  deriving Repr, DecidableEq

/-- The supervisor-visible part of the NCP context: `mModuleState`, whether
`gTHCISDKContext.mInitParams.mSdkQueue` is non-NULL, and a counter of
recovery events posted to that queue. -/
structure NcpState where
  moduleState : ModuleState
  sdkQueuePresent : Bool
  recoveryEventsPosted : Nat
  deriving Repr, DecidableEq

/-- `thciInitiateNCPRecovery` (thci_module_ncp.c lines 2668-2681): a no-op
when already in ResetRecovery, otherwise transitions the module state and
posts `sNCPRecoveryEvent` to the SDK queue (when one exists). -/
def thciInitiateNCPRecovery (s : NcpState) : NcpState :=
  if s.moduleState = .resetRecovery then
    s
  else
    { s with
      moduleState := .resetRecovery
      recoveryEventsPosted :=
        if s.sdkQueuePresent then s.recoveryEventsPosted + 1
        else s.recoveryEventsPosted }

/-- `HandleLastStatusUpdate` (thci_module_ncp.c lines 366-388), reduced to
its supervisor effect: unpack the packed-uint status from the frame
arguments and initiate NCP recovery when it falls in the reset range
(`SPINEL_STATUS_RESET__BEGIN <= status <= SPINEL_STATUS_RESET__END`).  The
`mLastStatus` diagnostic record and the log line are not tracked; on a
failed unpack the C branches on an indeterminate `status`, modelled as the
no-recovery outcome. -/
def HandleLastStatusUpdate (ncp : NcpState) (args : List Nat) : NcpState :=
  match parseUintPacked args with
  | some status =>
      if SPINEL_STATUS_RESET_BEGIN ≤ status ∧ status ≤ SPINEL_STATUS_RESET_END then
        thciInitiateNCPRecovery ncp
      else
        ncp
  | none => ncp

/-! ### Transaction matcher (`CompareResponse` / `HandleFrame` /
`thciUartWaitForResponseInternal`, thci_module_ncp_uart.cpp) -/

/-- A decoded inbound Spinel frame: the header byte, unpacked command and
property key, and the remaining argument bytes (`argPtr`/`argLen`). -/
structure Frame where
  header : Nat
  command : Nat
  key : Nat
  args : List Nat
  deriving Repr, DecidableEq

/-- The static response-matching state of the UART module:
`sResponseTransactionId`, `sResponseCommand`, `sResponseKey`,
`sResponseSuccess`, `sResponseReceived`, and the borrowed response
buffer (`sResponseBuffer`/`sResponseLength`). -/
structure ResponseState where
  transactionId : Nat
  command : Nat
  key : Nat
  success : Bool
  received : Bool
  buffer : List Nat
  deriving Repr, DecidableEq

/-- `SPINEL_HEADER_GET_TID`: the low 4 bits of the header byte. -/
def headerTid (header : Nat) : Nat := header % 16

/-- `CompareResponse` (thci_module_ncp_uart.cpp lines 541-565).  Returns
`retval` (whether the frame is accepted as the pending response) and the
updated state (`sResponseSuccess` may be set). -/
def CompareResponse (s : ResponseState) (aHeader aCommand aKey : Nat) :
    Bool × ResponseState :=
  if s.transactionId ≠ kDontCareTransactionId then
    if headerTid aHeader = s.transactionId then
      -- when the tid matches and is not the don't-care tid it is matched;
      -- the (command, key) comparison only decides success vs failure.
      if s.command = aCommand ∧ s.key = aKey then
        (true, { s with success := true })
      else
        (true, s)
    else
      (false, s)
  else
    if s.command = aCommand ∧ s.key = aKey then
      (true, { s with success := true })
    else
      (false, s)

/-- Where `HandleFrame` routes a decoded frame. -/
inductive FrameRoute where
  | internalResponse
  | dataFrame
  | controlFrame
  deriving Repr, DecidableEq

/-- The UART-module state touched by `HandleFrame`: the matcher state plus
the `sProvideInternalResponse` and `sDecodeFailure` stickies. -/
structure UartState where
  resp : ResponseState
  provideInternalResponse : Bool
  decodeFailure : Bool
  deriving Repr, DecidableEq

/-- `HandleFrame` (thci_module_ncp_uart.cpp lines 568-615), for a frame whose
`spinel_datatype_unpack` of `"CiiD"` succeeded.  When a request is pending
and `CompareResponse` accepts the frame, the response state is completed
(`sResponseReceived`, `sResponseBuffer`, `sResponseLength`), and on a
failure match whose key is last-status the frame arguments are run through
`HandleLastStatusUpdate` — which initiates NCP recovery for a reset-range
status, so the supervisor state is threaded through.  Otherwise the frame is
routed to the data-frame or control-frame callback by key (the effects of
those callbacks are modelled separately, by `ReceiveControlFrame`). -/
def HandleFrame (s : UartState) (ncp : NcpState) (f : Frame) :
    UartState × NcpState × FrameRoute :=
  if s.provideInternalResponse ∧ (CompareResponse s.resp f.header f.command f.key).1 then
    let r := (CompareResponse s.resp f.header f.command f.key).2
    let s1 : UartState := { s with resp := { r with received := true, buffer := f.args } }
    if ¬r.success ∧ f.key = SPINEL_PROP_LAST_STATUS then
      (s1, HandleLastStatusUpdate ncp f.args, .internalResponse)
    else
      (s1, ncp, .internalResponse)
  else if f.key = SPINEL_PROP_STREAM_NET ∨ f.key = SPINEL_PROP_STREAM_NET_INSECURE then
    (s, ncp, .dataFrame)
  else
    (s, ncp, .controlFrame)

/-- The registration step at the top of `thciUartWaitForResponseInternal`
(lines 821-826): record what is being looked for and clear
`sResponseSuccess` / `sResponseReceived`. -/
def initWaitState (aTransactionID aCommand aKey : Nat) : ResponseState :=
  ⟨aTransactionID, aCommand, aKey, false, false, []⟩

/-- The receive loop of the wait: feed arriving frames to `HandleFrame`
until `sResponseReceived` is set or the deadline passes (the frame list is
what arrives within the deadline), threading the supervisor state. -/
def processFrames (s : UartState) (ncp : NcpState) :
    List Frame → UartState × NcpState
  | [] => (s, ncp)
  | f :: fs =>
      if s.resp.received then (s, ncp)
      else processFrames (HandleFrame s ncp f).1 (HandleFrame s ncp f).2.1 fs

/-- `thciUartWaitForResponseInternal` (thci_module_ncp_uart.cpp lines
813-918).  `aAvoidNCPRecovery` is true only on the ignore-timeout path;
`queuePresent` is whether `sResponseQueueHandle` exists (normal driver
operation, as opposed to the AUPD fallback loop); `decodeFailure` is the
`sDecodeFailure` sticky at entry; `frames` are the frames arriving within
the 3-second deadline.  Returns the `otError` result, the final matcher
state, and the supervisor state (recovery may have been initiated, during
frame processing or on timeout). -/
def thciUartWaitForResponseInternal (aAvoidNCPRecovery : Bool)
    (aTransactionID aCommand aKey : Nat) (queuePresent decodeFailure : Bool)
    (frames : List Frame) (ncp : NcpState) :
    Option (Bool × List Nat) × ResponseState × NcpState :=
  -- result: `none` models OT_ERROR_NO_FRAME_RECEIVED; `some (ok, args)`
  -- models OT_ERROR_NONE (`ok = true`) or OT_ERROR_FAILED (`ok = false`)
  -- with the delivered response arguments.
  if decodeFailure then
    (none, initWaitState aTransactionID aCommand aKey, ncp)
  else
    let r := processFrames ⟨initWaitState aTransactionID aCommand aKey, true, false⟩ ncp frames
    if r.1.resp.received then
      (some (r.1.resp.success, r.1.resp.buffer), r.1.resp, r.2)
    else if queuePresent ∧ ¬aAvoidNCPRecovery then
      (none, r.1.resp, thciInitiateNCPRecovery r.2)
    else
      (none, r.1.resp, r.2)

/-! ### Pump-event deduplication (`sOutgoingIPPacketEventPosted`)

`LwIPOutputIP6` (lines 1068-1075), `thciStallOutgoingDataPackets` (lines
3134-3153) and the re-post at the end of `OutgoingIPPacketEventHandler`
(lines 1200-1213) all run `if (!__sync_fetch_and_or(&posted, 1)) post();`,
and the handler executes `sOutgoingIPPacketEventPosted = 0;` at entry, after
the event was dequeued from the SDK queue.  This is modelled as an
interleaved transition system: two poster threads (the IP-stack submission
path and the stall-release path) and the driver-task handler, with the
`fetch_or`, the post, the dequeue and the flag clear each an atomic step. -/

/-- Control state of a thread executing the test-and-set-then-post idiom:
after the atomic `fetch_or` the thread still has to perform (or skip) the
post. `deciding b` records whether the fetched value was 0 (`b = true`
means this thread won the right to post). -/
inductive PosterPC where
  | idle
  | deciding (doPost : Bool)
  deriving Repr, DecidableEq

/-- Control state of the driver-task handler `OutgoingIPPacketEventHandler`:
it has dequeued the event but not yet cleared the flag (`clearFlag`), is
running the drain loop (`running`), or is between the exit `fetch_or` and
the re-post (`reposting b`). -/
inductive HandlerPC where
  | idle
  | clearFlag
  | running
  | reposting (doPost : Bool)
  deriving Repr, DecidableEq

/-- Global state of the dedup protocol: the `sOutgoingIPPacketEventPosted`
flag, the number of `sOutgoingIPPacketEvent`s resident in the driver task
mailbox, and the three thread control states. -/
structure PumpState where
  flag : Bool
  mailbox : Nat
  lwip : PosterPC
  stall : PosterPC
  handler : HandlerPC
  deriving Repr, DecidableEq

/-- Initial state: flag clear, mailbox empty, all threads idle. -/
def initPump : PumpState := ⟨false, 0, .idle, .idle, .idle⟩

/-- One atomic step of the dedup protocol.  The `fetch_or` steps are split
by the value the atomic read returns (`...Set` when the flag was already 1,
so the thread will skip its post; `...Clear` when it was 0, so the thread
has won the right to post); a dequeue is only enabled when the mailbox is
non-empty (`m + 1`). -/
inductive PumpStep : PumpState → PumpState → Prop where
  | lwipFetchOrSet (m : Nat) (st : PosterPC) (hd : HandlerPC) :
      PumpStep ⟨true, m, .idle, st, hd⟩ ⟨true, m, .deciding false, st, hd⟩
  | lwipFetchOrClear (m : Nat) (st : PosterPC) (hd : HandlerPC) :
      PumpStep ⟨false, m, .idle, st, hd⟩ ⟨true, m, .deciding true, st, hd⟩
  | lwipPost (f : Bool) (m : Nat) (st : PosterPC) (hd : HandlerPC) :
      PumpStep ⟨f, m, .deciding true, st, hd⟩ ⟨f, m + 1, .idle, st, hd⟩
  | lwipSkip (f : Bool) (m : Nat) (st : PosterPC) (hd : HandlerPC) :
      PumpStep ⟨f, m, .deciding false, st, hd⟩ ⟨f, m, .idle, st, hd⟩
  | stallFetchOrSet (m : Nat) (lw : PosterPC) (hd : HandlerPC) :
      PumpStep ⟨true, m, lw, .idle, hd⟩ ⟨true, m, lw, .deciding false, hd⟩
  | stallFetchOrClear (m : Nat) (lw : PosterPC) (hd : HandlerPC) :
      PumpStep ⟨false, m, lw, .idle, hd⟩ ⟨true, m, lw, .deciding true, hd⟩
  | stallPost (f : Bool) (m : Nat) (lw : PosterPC) (hd : HandlerPC) :
      PumpStep ⟨f, m, lw, .deciding true, hd⟩ ⟨f, m + 1, lw, .idle, hd⟩
  | stallSkip (f : Bool) (m : Nat) (lw : PosterPC) (hd : HandlerPC) :
      PumpStep ⟨f, m, lw, .deciding false, hd⟩ ⟨f, m, lw, .idle, hd⟩
  | handlerDequeue (f : Bool) (m : Nat) (lw st : PosterPC) :
      PumpStep ⟨f, m + 1, lw, st, .idle⟩ ⟨f, m, lw, st, .clearFlag⟩
  | handlerClear (f : Bool) (m : Nat) (lw st : PosterPC) :
      PumpStep ⟨f, m, lw, st, .clearFlag⟩ ⟨false, m, lw, st, .running⟩
  | handlerFinish (f : Bool) (m : Nat) (lw st : PosterPC) :
      PumpStep ⟨f, m, lw, st, .running⟩ ⟨f, m, lw, st, .idle⟩
  | handlerFetchOrSet (m : Nat) (lw st : PosterPC) :
      PumpStep ⟨true, m, lw, st, .running⟩ ⟨true, m, lw, st, .reposting false⟩
  | handlerFetchOrClear (m : Nat) (lw st : PosterPC) :
      PumpStep ⟨false, m, lw, st, .running⟩ ⟨true, m, lw, st, .reposting true⟩
  | handlerRepost (f : Bool) (m : Nat) (lw st : PosterPC) :
      PumpStep ⟨f, m, lw, st, .reposting true⟩ ⟨f, m + 1, lw, st, .idle⟩
  | handlerRepostSkip (f : Bool) (m : Nat) (lw st : PosterPC) :
      PumpStep ⟨f, m, lw, st, .reposting false⟩ ⟨f, m, lw, st, .idle⟩

/-- States reachable from the initial state. -/
def PumpReachable (s : PumpState) : Prop :=
  Relation.ReflTransGen PumpStep initPump s

/-- 1 when a poster thread has won the `fetch_or` and will post. -/
def PosterPC.commit : PosterPC → Nat
  | .deciding true => 1
  | _ => 0

/-- 1 when the handler has won the exit `fetch_or` and will re-post. -/
def HandlerPC.commit : HandlerPC → Nat
  | .reposting true => 1
  | _ => 0

/-- Events resident in the mailbox plus posts already committed to. -/
def pend (s : PumpState) : Nat :=
  s.mailbox + s.lwip.commit + s.stall.commit + s.handler.commit

/-- Inductive invariant of the dedup protocol. -/
def PumpInv (s : PumpState) : Prop :=
  pend s ≤ 1 ∧ (1 ≤ pend s → s.flag = true) ∧
    (s.handler = .clearFlag → s.flag = true ∧ pend s = 0)

/-! ### Control-plane dispatch (`ReceiveControlFrame` /
`StateChangeEventHandler`, thci_module_ncp.c) -/

/-- `OT_CHANGED_THREAD_ROLE` flag bit (OpenThread `instance.h`). -/
def OT_CHANGED_THREAD_ROLE : Nat := 4
/-- `OT_CHANGED_IP6_ADDRESS_ADDED` flag bit (OpenThread `instance.h`). -/
def OT_CHANGED_IP6_ADDRESS_ADDED : Nat := 1
/-- `OT_CHANGED_IP6_MULTICAST_SUBSRCRIBED` flag bit (OpenThread header). -/
def OT_CHANGED_IP6_MULTICAST_SUBSRCRIBED : Nat := 4096

/-- `otDeviceRole` (OpenThread). -/
inductive OtDeviceRole where
  | disabled
  | detached
  | child
  | router
  | leader
  deriving Repr, DecidableEq

/-- `TranslateSpinelRole` (thci_module_ncp.c lines 219-241):
`SPINEL_NET_ROLE_{DETACHED,CHILD,ROUTER,LEADER} = 0,1,2,3`, default
detached. -/
def TranslateSpinelRole (aRole : Nat) : OtDeviceRole :=
  if aRole = 1 then .child
  else if aRole = 2 then .router
  else if aRole = 3 then .leader
  else .detached

/-- The property keys distinguished by the `ReceiveControlFrame` switch;
`otherKey` stands for any key not named in it. -/
inductive CtlKey where
  | lastStatus
  | netRole
  | legacyUlaPrefix
  | macScanState
  | childTable
  | ipv6AddressTable
  | ipv6MulticastAddressTable
  | macScanBeacon
  | otherKey
  deriving Repr, DecidableEq

/-- The commands distinguished by `ReceiveControlFrame`. -/
inductive CtlCmd where
  | propValueIs
  | propValueInserted
  | otherCmd
  deriving Repr, DecidableEq

/-- An unsolicited control frame as seen by `ReceiveControlFrame`, with the
outcomes of its internal `spinel_datatype_unpack` calls abstracted:
`roleValue` is the role byte (when `key = netRole`), `parseOk` is whether
the unpack of the frame arguments succeeds, and `bufferAvailable` whether
`AllocateCallbackBuffer` finds a free slot. -/
structure CtlFrame where
  cmd : CtlCmd
  key : CtlKey
  roleValue : Nat
  parseOk : Bool
  bufferAvailable : Bool
  deriving Repr, DecidableEq

/-- The NCP-context state touched by the control-plane dispatcher:
`mStateChangeFlags`, `mDeviceRole`, whether `mStateChangeCallback` is
registered, and counters of posted `sStateChangeEvent`s and of other
posted events (legacy-ULA, scan-complete, scan-result). -/
structure CtlState where
  stateChangeFlags : Nat
  deviceRole : OtDeviceRole
  callbackRegistered : Bool
  stateChangeEventsPosted : Nat
  otherEventsPosted : Nat
  deriving Repr, DecidableEq

/-- `ReceiveControlFrame` (thci_module_ncp.c lines 890-1027).  Each
`PROP_VALUE_IS` key updates the context per its case; the zero-to-non-zero
check on `mStateChangeFlags` (lines 971-975) posts a single
`sStateChangeEvent`.  The `nlREQUIRE`-failure paths jump to `done` and skip
that check. -/
def ReceiveControlFrame (s : CtlState) (f : CtlFrame) : CtlState :=
  match f.cmd with
  | .propValueIs =>
      let prevStateFlags := s.stateChangeFlags
      -- result of the switch: the updated state and whether control reaches
      -- the post-switch check (false on the `goto done` paths).
      let (s1, reachesCheck) :=
        match f.key with
        | .netRole =>
            if f.parseOk then
              ({ s with
                  deviceRole := TranslateSpinelRole f.roleValue
                  stateChangeFlags := s.stateChangeFlags ||| OT_CHANGED_THREAD_ROLE }, true)
            else (s, false)
        | .legacyUlaPrefix =>
            if f.bufferAvailable then
              if f.parseOk then
                ({ s with otherEventsPosted := s.otherEventsPosted + 1 }, true)
              else (s, false)
            else (s, false)
        | .macScanState =>
            ({ s with otherEventsPosted := s.otherEventsPosted + 1 }, true)
        | .ipv6AddressTable =>
            ({ s with
                stateChangeFlags := s.stateChangeFlags ||| OT_CHANGED_IP6_ADDRESS_ADDED }, true)
        | .ipv6MulticastAddressTable =>
            ({ s with
                stateChangeFlags :=
                  s.stateChangeFlags ||| OT_CHANGED_IP6_MULTICAST_SUBSRCRIBED }, true)
        | _ => (s, true)
      if reachesCheck ∧ prevStateFlags = 0 ∧ s1.stateChangeFlags ≠ 0 then
        { s1 with stateChangeEventsPosted := s1.stateChangeEventsPosted + 1 }
      else
        s1
  | .propValueInserted =>
      match f.key with
      | .macScanBeacon =>
          if f.bufferAvailable then
            { s with otherEventsPosted := s.otherEventsPosted + 1 }
          else s
      | _ => s
  | .otherCmd => s

/-- `StateChangeEventHandler` (thci_module_ncp.c lines 814-824): when a
callback is registered, read the pending flags, zero them, and invoke the
callback once with the read value (returned as `some flags`). -/
def StateChangeEventHandler (s : CtlState) : CtlState × Option Nat :=
  if s.callbackRegistered then
    ({ s with stateChangeFlags := 0 }, some s.stateChangeFlags)
  else
    (s, none)

/-! ### Outbound datagram submission (`LwIPOutputIP6`, thci_module_ncp.c) -/

/-- An lwIP pbuf chain, reduced to its segment lengths: `segs.headD 0` is
`pbuf->len` (the first segment) and `segs.sum` is `pbuf->tot_len`. -/
structure Pbuf where
  segs : List Nat
  deriving Repr, DecidableEq

/-- `err_t` values returned by `LwIPOutputIP6`. -/
inductive LwipErr where
  | errOk
  | errVal
  | errIf
  | errMem
  | errInprogress
  deriving Repr, DecidableEq

/-- The transmit-side driver state threaded through `LwIPOutputIP6`: the
outbound store and the outgoing message queue (offsets of enqueued
messages; capacity `MESSAGE_QUEUE_SIZE`). -/
structure DriverTx where
  store : StoreState
  queue : List Nat
  deriving Repr, DecidableEq

/-- `CreateTHCIMessageFromPbuf` (thci_module_ncp.c lines 645-739), reduced
to its allocation effect: a single `NewMessage` attempt for `tot_len`
payload bytes (the retry-after-wait loop is collapsed into the one attempt;
on `NULL` the model fails as on wait timeout). -/
def CreateTHCIMessageFromPbuf (st : StoreState) (totLen : Nat) :
    Option Nat × StoreState :=
  match NewMessage st.ring totLen with
  | (some off, r) => (some off, ⟨r, (off, alignedSize totLen) :: st.live⟩)
  | (none, r) => (none, ⟨r, st.live⟩)

/-- `EnqueueMessage` (part_004 lines 98-112): fails with `-ENOSPC` when the
slot at the queue head is occupied, i.e. when the queue is full. -/
def EnqueueMessage (q : List Nat) (off : Nat) : Option (List Nat) :=
  if q.length < MESSAGE_QUEUE_SIZE then some (q ++ [off]) else none

/-- Free a message back out of the live list (used by the `done` cleanup of
`LwIPOutputIP6` when enqueueing fails). -/
def storeFreeNewest (st : StoreState) : StoreState :=
  match st.live with
  | (off, len) :: rest => ⟨(FreeMessage st.ring off len).state, rest⟩
  | [] => st

/-- `LwIPOutputIP6` (thci_module_ncp.c lines 1034-1088), without the
legacy-netif variant: the MTU guard on `pbuf->len`, the netif guard,
message creation, enqueueing, and the failure cleanup that frees the
message.  The pump-event post is covered by the `PumpStep` system. -/
def LwIPOutputIP6 (d : DriverTx) (p : Pbuf) (netifOk : Bool) :
    LwipErr × DriverTx :=
  if ¬(p.segs.headD 0 ≤ NL_THCI_PAYLOAD_MTU) then
    (.errVal, d)
  else if ¬netifOk then
    (.errIf, d)
  else
    match CreateTHCIMessageFromPbuf d.store p.segs.sum with
    | (none, st) => (.errMem, { d with store := st })
    | (some off, st) =>
        match EnqueueMessage d.queue off with
        | some q => (.errOk, ⟨st, q⟩)
        | none => (.errInprogress, { d with store := storeFreeNewest st })

/-! ### `thciGetVersionString` (thci_module_ncp.c lines 2455-2489) -/

/-- `otError` values returned by `thciGetVersionString`. -/
inductive OtError where
  | errNone
  | errFailed
  | errParse
  | errInvalidArgs
  | errInvalidState
  | errNoFrameReceived
  deriving Repr, DecidableEq

/-- `thciGetVersionString`.  `aStringNonNull` is whether the caller passed a
non-NULL buffer; `initialized` is `mModuleState == kModuleStateInitialized`;
`response` is the outcome of the request round trip (`none` when the send,
wait, or parse fails, `some version` the NUL-free version-string bytes
parsed from the response).  On success the second component holds the bytes
written into `aString`. -/
def thciGetVersionString (aStringNonNull : Bool) (aLength : Nat)
    (initialized : Bool) (response : Option (List Nat)) :
    OtError × Option (List Nat) :=
  if ¬(aStringNonNull ∧ aLength ≠ 0) then
    (.errInvalidArgs, none)
  else if ¬initialized then
    (.errInvalidState, none)
  else
    match response with
    | none => (.errNoFrameReceived, none)
    | some version =>
        let versionLength := version.length
        let versionLength :=
          if aLength < versionLength + 1 then aLength - 1 else versionLength
        (.errNone, some (version.take versionLength ++ [0]))

/-! ## Theorems -/

set_option maxRecDepth 4000 in
/-- Claim C4: every value returned by `GetNewTransactionId` lies in
{2, ..., 14} — never 0, 1 (don't-care) or 15 — and successive calls cycle
round-robin through that range regardless of the starting counter value:
from any counter in {2, ..., 13} the next value is the successor, and from
14 the cycle restarts at 2. -/
theorem C4_transaction_id_range (t : Nat) (h : t < 256) :
    (2 ≤ GetNewTransactionId t ∧ GetNewTransactionId t ≤ 14) ∧
    (2 ≤ t → t ≤ 13 → GetNewTransactionId t = t + 1) ∧
    GetNewTransactionId 14 = 2 := by
  revert h
  revert t
  decide

/-- Witness for C4 at `t = 3`. -/
theorem C4_transaction_id_range_witness :
    (2 ≤ GetNewTransactionId 3 ∧ GetNewTransactionId 3 ≤ 14) ∧
    (2 ≤ 3 → 3 ≤ 13 → GetNewTransactionId 3 = 3 + 1) ∧
    GetNewTransactionId 14 = 2 :=
  C4_transaction_id_range 3 (by decide)

/-- An accepted `FreeMessage` updates the ring pointers exactly as
`freeAdvance` does (the waiter-wake bookkeeping only touches
`waitFreeQueueEmpty`). -/
theorem FreeMessage_state_fields (s : RingState) (msgOff totalLength : Nat)
    (h : msgOff = s.tail ∨ msgOff + totalLength = s.head) :
    (FreeMessage s msgOff totalLength).state.head =
        (freeAdvance s msgOff totalLength).head ∧
      (FreeMessage s msgOff totalLength).state.tail =
        (freeAdvance s msgOff totalLength).tail ∧
      (FreeMessage s msgOff totalLength).state.endGap =
        (freeAdvance s msgOff totalLength).endGap := by
  unfold FreeMessage
  rw [if_pos h]
  dsimp only
  split <;> exact ⟨rfl, rfl, rfl⟩

/-- Claim C2: when the aligned size of an allocation does not fit in the run
at the current ring head (which sits above the tail) but fits strictly below
the tail, `NewMessage` wraps to the buffer base, allocating at offset 0 and
recording the skipped trailing bytes `RING_BUFFER_SIZE - head` in the
end-gap; from the resulting state, a `FreeMessage` of the oldest message
whose tail advance reaches the end-gap resets the tail to the base and
clears the gap, and a `FreeMessage` of the newest (wrapped) message rewinds
the head from the base back past the gap — to its pre-wrap position — and
clears the gap. -/
theorem C2_wrap_and_endgap (s : RingState) (payload mLen : Nat)
    (hlt : s.tail < s.head) (hhead : s.head < RING_BUFFER_SIZE)
    (hnofit : RING_BUFFER_SIZE ≤ alignedSize payload + s.head)
    (hfit : alignedSize payload < s.tail)
    (hreach : s.head ≤ s.tail + mLen) :
    NewMessage s payload =
      (some 0,
        { s with
          head := alignedSize payload
          endGap := RING_BUFFER_SIZE - s.head }) ∧
    (FreeMessage
        { s with head := alignedSize payload, endGap := RING_BUFFER_SIZE - s.head }
        s.tail mLen).state.tail = 0 ∧
    (FreeMessage
        { s with head := alignedSize payload, endGap := RING_BUFFER_SIZE - s.head }
        s.tail mLen).state.endGap = 0 ∧
    (FreeMessage
        { s with head := alignedSize payload, endGap := RING_BUFFER_SIZE - s.head }
        0 (alignedSize payload)).state.head = s.head ∧
    (FreeMessage
        { s with head := alignedSize payload, endGap := RING_BUFFER_SIZE - s.head }
        0 (alignedSize payload)).state.endGap = 0 := by
  have h0 : ¬ (s.head = s.tail) := by omega
  have h1 : ¬ (s.head < s.tail) := by omega
  have h3 : ¬ (alignedSize payload + s.head < RING_BUFFER_SIZE) := by omega
  have h4 : alignedSize payload + 0 < s.tail := by omega
  refine ⟨?_, ?_, ?_, ?_, ?_⟩
  · unfold NewMessage
    dsimp only
    rw [if_neg h0, if_neg h1, if_pos (show s.head > s.tail from hlt)]
    dsimp only
    rw [if_neg h3, if_pos h4]
    simp
  · rw [(FreeMessage_state_fields _ _ _ (Or.inl rfl)).2.1]
    unfold freeAdvance
    rw [if_pos rfl, if_pos (by dsimp only; omega)]
  · rw [(FreeMessage_state_fields _ _ _ (Or.inl rfl)).2.2]
    unfold freeAdvance
    rw [if_pos rfl, if_pos (by dsimp only; omega)]
  · rw [(FreeMessage_state_fields _ _ _ (Or.inr (by simp))).1]
    unfold freeAdvance
    rw [if_neg (by dsimp only; omega),
      if_pos (by dsimp only; exact ⟨rfl, by omega⟩)]
    dsimp only
    omega
  · rw [(FreeMessage_state_fields _ _ _ (Or.inr (by simp))).2.2]
    unfold freeAdvance
    rw [if_neg (by dsimp only; omega),
      if_pos (by dsimp only; exact ⟨rfl, by omega⟩)]

/-- Witness for C2: ring of capacity 6400 with tail 3200 and head 4000; a
payload of 2388 bytes (aligned size 2400) wraps, records end-gap 2400, and
the two releases behave as stated. -/
theorem C2_wrap_and_endgap_witness :
    NewMessage ⟨4000, 3200, 0, false⟩ 2388 =
      (some 0, ⟨2400, 3200, 2400, false⟩) ∧
    (FreeMessage ⟨2400, 3200, 2400, false⟩ 3200 800).state.tail = 0 ∧
    (FreeMessage ⟨2400, 3200, 2400, false⟩ 3200 800).state.endGap = 0 ∧
    (FreeMessage ⟨2400, 3200, 2400, false⟩ 0 (alignedSize 2388)).state.head = 4000 ∧
    (FreeMessage ⟨2400, 3200, 2400, false⟩ 0 (alignedSize 2388)).state.endGap = 0 := by
  have h := C2_wrap_and_endgap ⟨4000, 3200, 0, false⟩ 2388 800
    (by decide) (by decide) (by decide) (by decide) (by decide)
  simpa using h

/-- Claim C7: `FreeMessage` accepts a release exactly when the freed message
starts at the ring tail (oldest) or ends at the ring head (newest); any
other argument is rejected, leaving the ring state (head, tail, end-gap)
unchanged and posting no waiter wake event. -/
theorem C7_interior_free_rejected (s : RingState) (msgOff totalLength : Nat) :
    ((FreeMessage s msgOff totalLength).accepted ↔
      (msgOff = s.tail ∨ msgOff + totalLength = s.head)) ∧
    (¬(msgOff = s.tail ∨ msgOff + totalLength = s.head) →
      FreeMessage s msgOff totalLength = ⟨s, false, false⟩) := by
  constructor
  · constructor
    · intro hacc
      by_contra hc
      unfold FreeMessage at hacc
      rw [if_neg hc] at hacc
      exact Bool.false_ne_true hacc
    · intro hcond
      unfold FreeMessage
      rw [if_pos hcond]
      dsimp only
      split <;> rfl
  · intro h
    unfold FreeMessage
    rw [if_neg h]

/-- Witness for C7: freeing a message at offset 8 when the tail is 0 and the
head is 100 is rejected with the state unchanged. -/
theorem C7_interior_free_rejected_witness :
    FreeMessage ⟨100, 0, 0, true⟩ 8 12 = ⟨⟨100, 0, 0, true⟩, false, false⟩ :=
  (C7_interior_free_rejected ⟨100, 0, 0, true⟩ 8 12).2 (by decide)

/-- Claim C1: while a request registered as (tid, cmd, key) is pending, an
arriving frame is accepted as the response exactly when the request tid is
not the don't-care id and the frame header's 4-bit tid equals it, or the
request tid is the don't-care id and the frame's (command, key) equals the
expected pair; when the tid matches but (command, key) differ the wait
completes as a failure — `OT_ERROR_FAILED` carrying the mismatched frame's
arguments, the frame typically being a last-status property whose arguments
are also run through `HandleLastStatusUpdate` (initiating recovery for a
reset-range code) — and whenever (command, key) match on an accepted frame
the match is a success. -/
theorem C1_response_matching (tid cmd key : Nat) (f : Frame) (ncp : NcpState) :
    ((HandleFrame ⟨initWaitState tid cmd key, true, false⟩ ncp f).2.2 =
        .internalResponse ↔
      ((tid ≠ kDontCareTransactionId ∧ headerTid f.header = tid) ∨
        (tid = kDontCareTransactionId ∧ cmd = f.command ∧ key = f.key))) ∧
    ((tid ≠ kDontCareTransactionId ∧ headerTid f.header = tid ∧
        ¬(cmd = f.command ∧ key = f.key)) →
      thciUartWaitForResponseInternal false tid cmd key true false [f] ncp =
        (some (false, f.args), ⟨tid, cmd, key, false, true, f.args⟩,
          if f.key = SPINEL_PROP_LAST_STATUS then
            HandleLastStatusUpdate ncp f.args
          else ncp)) ∧
    (((cmd = f.command ∧ key = f.key) ∧
        (HandleFrame ⟨initWaitState tid cmd key, true, false⟩ ncp f).2.2 =
          .internalResponse) →
      (HandleFrame ⟨initWaitState tid cmd key, true, false⟩ ncp f).1.resp.success =
        true) := by
  refine ⟨?_, ?_, ?_⟩
  · by_cases hd : tid = kDontCareTransactionId <;>
      by_cases hp : cmd = f.command ∧ key = f.key <;>
        by_cases ht : headerTid f.header = tid <;>
          simp [HandleFrame, CompareResponse, initWaitState, hd, hp, ht] <;>
            split <;> simp_all
  · rintro ⟨hd, ht, hp⟩
    by_cases hk : f.key = SPINEL_PROP_LAST_STATUS
    · rw [hk] at hp
      simp [thciUartWaitForResponseInternal, processFrames, HandleFrame,
        CompareResponse, initWaitState, hd, ht, hp, hk]
    · simp [thciUartWaitForResponseInternal, processFrames, HandleFrame,
        CompareResponse, initWaitState, hd, ht, hp, hk]
  · rintro ⟨hp, hacc⟩
    by_cases hd : tid = kDontCareTransactionId <;>
      by_cases ht : headerTid f.header = tid <;>
        simp_all [HandleFrame, CompareResponse, initWaitState, hd, ht, hp] <;>
          split at hacc <;> simp_all

/-- Witness for C1: request (tid 2, cmd 6, key 3); a frame with header 0x82
(tid 2), command 6, key 0 (last-status) mismatches the expected pair, so the
wait returns the failure result carrying the frame's argument — the packed
status 114, which lies in the reset range, so recovery is initiated during
the wait. -/
theorem C1_response_matching_witness :
    thciUartWaitForResponseInternal false 2 6 3 true false
        [⟨0x82, 6, SPINEL_PROP_LAST_STATUS, [114]⟩] ⟨.initializedState, true, 0⟩ =
      (some (false, [114]), ⟨2, 6, 3, false, true, [114]⟩,
        ⟨.resetRecovery, true, 1⟩) :=
  ((C1_response_matching 2 6 3 ⟨0x82, 6, SPINEL_PROP_LAST_STATUS, [114]⟩
    ⟨.initializedState, true, 0⟩).2.1 (by decide)).trans (by decide)

/-- A wait state that has already received its response passes through the
receive loop unchanged. -/
theorem processFrames_received (s : UartState) (ncp : NcpState)
    (frames : List Frame) (h : s.resp.received = true) :
    processFrames s ncp frames = (s, ncp) := by
  cases frames <;> simp [processFrames, h]

/-- `HandleFrame` either completes the pending response (setting
`sResponseReceived`) or leaves both the matcher state and the supervisor
state untouched. -/
theorem HandleFrame_cases (s : UartState) (ncp : NcpState) (f : Frame) :
    (HandleFrame s ncp f).1.resp.received = true ∨
      ((HandleFrame s ncp f).1 = s ∧ (HandleFrame s ncp f).2.1 = ncp) := by
  unfold HandleFrame
  by_cases h1 : s.provideInternalResponse ∧
      (CompareResponse s.resp f.header f.command f.key).1
  · rw [if_pos h1]
    dsimp only
    split <;> simp
  · rw [if_neg h1]
    split <;> simp

/-- If the receive loop ends without a received response, no frame was
accepted, so the supervisor state is unchanged by it. -/
theorem processFrames_ncp_of_not_received (frames : List Frame)
    (s : UartState) (ncp : NcpState)
    (h : (processFrames s ncp frames).1.resp.received = false) :
    (processFrames s ncp frames).2 = ncp := by
  induction frames generalizing s ncp with
  | nil => rfl
  | cons f fs ih =>
      by_cases hr : s.resp.received = true
      · rw [processFrames_received s ncp (f :: fs) hr] at h
        simp [hr] at h
      · have hstep : processFrames s ncp (f :: fs) =
            processFrames (HandleFrame s ncp f).1 (HandleFrame s ncp f).2.1 fs := by
          simp [processFrames, hr]
        rw [hstep] at h ⊢
        rcases HandleFrame_cases s ncp f with hacc | ⟨hs, hncp⟩
        · rw [processFrames_received _ _ fs hacc] at h
          simp_all
        · rw [hs, hncp] at h ⊢
          exact ih s ncp h

/-- Claim C6: a request awaited without the ignore-timeout option for which
no matching frame arrives within the deadline yields the
no-frame-received error, leaves the module in ResetRecovery, and posts
exactly one recovery event; initiating recovery while already in
ResetRecovery changes no state and posts no event. -/
theorem C6_timeout_recovery (tid cmd key : Nat) (frames : List Frame)
    (ncp : NcpState)
    (hnomatch :
      (processFrames ⟨initWaitState tid cmd key, true, false⟩ ncp
          frames).1.resp.received = false)
    (hsdk : ncp.sdkQueuePresent = true) :
    (thciUartWaitForResponseInternal false tid cmd key true false frames ncp).1 =
      none ∧
    (thciUartWaitForResponseInternal false tid cmd key true false
        frames ncp).2.2.moduleState = .resetRecovery ∧
    (ncp.moduleState ≠ .resetRecovery →
      (thciUartWaitForResponseInternal false tid cmd key true false
          frames ncp).2.2.recoveryEventsPosted = ncp.recoveryEventsPosted + 1) ∧
    (ncp.moduleState = .resetRecovery →
      (thciUartWaitForResponseInternal false tid cmd key true false
          frames ncp).2.2 = ncp) := by
  have hpres := processFrames_ncp_of_not_received frames
    ⟨initWaitState tid cmd key, true, false⟩ ncp hnomatch
  simp only [thciUartWaitForResponseInternal, Bool.false_eq_true, if_false,
    reduceIte, hnomatch, not_false_iff, and_true, hpres]
  by_cases hrec : ncp.moduleState = .resetRecovery
  · simp [thciInitiateNCPRecovery, hrec]
  · simp [thciInitiateNCPRecovery, hrec, hsdk]

/-- Witness for C6: tid-2 request, no frame arrives at all, module
initialized with an SDK queue. -/
theorem C6_timeout_recovery_witness :
    (thciUartWaitForResponseInternal false 2 6 2 true false []
        ⟨.initializedState, true, 0⟩).1 = none ∧
    (thciUartWaitForResponseInternal false 2 6 2 true false []
        ⟨.initializedState, true, 0⟩).2.2.moduleState = .resetRecovery ∧
    ((⟨.initializedState, true, 0⟩ : NcpState).moduleState ≠ .resetRecovery →
      (thciUartWaitForResponseInternal false 2 6 2 true false []
          ⟨.initializedState, true, 0⟩).2.2.recoveryEventsPosted = 0 + 1) ∧
    ((⟨.initializedState, true, 0⟩ : NcpState).moduleState = .resetRecovery →
      (thciUartWaitForResponseInternal false 2 6 2 true false []
          ⟨.initializedState, true, 0⟩).2.2 = ⟨.initializedState, true, 0⟩) :=
  C6_timeout_recovery 2 6 2 [] ⟨.initializedState, true, 0⟩ (by decide) (by decide)

/-- Counterexample for claim C3: after the discipline-obeying sequence
alloc 1988, alloc 1988, free-oldest (aligned sizes 2000 each), the live
bytes are 2000 and a request of payload 2388 (aligned size 2400) satisfies
live + request < capacity — live bytes are far below capacity minus any
per-message overhead — yet `NewMessage` reports exhaustion: the 4400 free
bytes are split into a 2400-byte run above the head and a 2000-byte run at
the base, and an exact fit of the 2400-byte run is refused by the strict
comparison. -/
theorem C3_no_false_exhaustion_counterexample :
    (runOps initStore [.alloc 1988, .alloc 1988, .freeOldest]).liveBytes = 2000 ∧
    (runOps initStore [.alloc 1988, .alloc 1988, .freeOldest]).liveBytes +
        alignedSize 2388 + MSG_HEADER_SIZE < RING_BUFFER_SIZE ∧
    (NewMessage (runOps initStore [.alloc 1988, .alloc 1988, .freeOldest]).ring
        2388).1 = none := by
  decide

/-- Claim C3 as amended: an allocation succeeds exactly when its aligned
size fits strictly inside the free run above the ring head (up to the ring
end, or up to the tail when the head sits below it) or strictly below the
ring tail when the head sits above the tail; because the free space can be
split between those two runs and an exact fit is refused, `NewMessage` can
report exhaustion even while total live bytes remain below capacity minus
header overhead and alignment slack. -/
theorem C3_alloc_success_characterization (s : RingState) (payload : Nat) :
    ((NewMessage s payload).1.isSome ↔
      (alignedSize payload +
          (if s.head = s.tail then 0 else s.head) <
          (if s.head = s.tail then RING_BUFFER_SIZE
            else if s.head < s.tail then s.tail else RING_BUFFER_SIZE) ∨
        ((if s.head = s.tail then 0 else s.tail) <
            (if s.head = s.tail then 0 else s.head) ∧
          alignedSize payload < s.tail))) := by
  unfold NewMessage
  dsimp only
  split_ifs <;> simp_all <;> split_ifs <;> simp_all

/-- Claim C9 counterexample: a chained pbuf of two 1000-byte segments — an
outbound datagram of total length 2000, exceeding the 1280-byte payload MTU
— is not rejected: the guard examines only `pbuf->len` (the first segment),
so the submission succeeds, creating a message in the store and enqueueing
it. -/
theorem C9_mtu_counterexample :
    NL_THCI_PAYLOAD_MTU < ([1000, 1000] : List Nat).sum ∧
    LwIPOutputIP6 ⟨initStore, []⟩ ⟨[1000, 1000]⟩ true =
      (.errOk, ⟨⟨⟨2012, 0, 0, false⟩, [(0, 2012)]⟩, [0]⟩) := by
  decide

/-- Claim C9 as amended: the MTU guard of `LwIPOutputIP6` rejects exactly on
the first pbuf segment: every submission whose first segment exceeds
`NL_THCI_PAYLOAD_MTU` — in particular every unchained datagram longer than
the MTU — returns `ERR_VAL` with the outbound store and the message queue
unchanged; a chained datagram whose first segment is within the MTU is not
rejected by this guard even when its total length exceeds the MTU. -/
theorem C9_mtu_first_segment_rejected (d : DriverTx) (p : Pbuf) (netifOk : Bool)
    (h : NL_THCI_PAYLOAD_MTU < p.segs.headD 0) :
    LwIPOutputIP6 d p netifOk = (.errVal, d) := by
  unfold LwIPOutputIP6
  rw [if_pos (Nat.not_le.mpr h)]

/-- Witness for the amended C9: a single-segment 1281-byte datagram is
rejected and nothing changes. -/
theorem C9_mtu_first_segment_rejected_witness :
    LwIPOutputIP6 ⟨initStore, []⟩ ⟨[1281]⟩ true = (.errVal, ⟨initStore, []⟩) :=
  C9_mtu_first_segment_rejected ⟨initStore, []⟩ ⟨[1281]⟩ true (by decide)

/-- Claim C10: a successful `thciGetVersionString` with a non-NULL buffer
and non-zero length writes at most `aLength` bytes, always NUL-terminates,
and truncates the version string whenever the buffer is smaller than the
version string plus its terminator. -/
theorem C10_version_string_truncation (aLength : Nat) (version w : List Nat)
    (hlen : aLength ≠ 0)
    (hw : thciGetVersionString true aLength true (some version) =
      (.errNone, some w)) :
    w.length ≤ aLength ∧ w.getLast? = some 0 ∧
      w = version.take (min version.length (aLength - 1)) ++ [0] := by
  unfold thciGetVersionString at hw
  rw [if_neg (by simp [hlen])] at hw
  rw [if_neg (by simp)] at hw
  have hw2 : version.take
      (if aLength < version.length + 1 then aLength - 1 else version.length) ++
        ([0] : List Nat) = w := by
    have := congrArg Prod.snd hw
    simpa using this
  subst hw2
  by_cases hc : aLength < version.length + 1
  · rw [if_pos hc]
    refine ⟨?_, ?_, ?_⟩
    · simp only [List.length_append, List.length_take, List.length_singleton]
      omega
    · rw [List.getLast?_concat]
    · rw [min_eq_right (by omega)]
  · rw [if_neg hc]
    refine ⟨?_, ?_, ?_⟩
    · simp only [List.length_append, List.length_take, List.length_singleton]
      omega
    · rw [List.getLast?_concat]
    · rw [min_eq_left (by omega), List.take_length]

/-- Claim C8: handling an unsolicited property-value-is frame posts exactly
one state-changed event when it takes the pending flag set from zero to
non-zero, and none when it leaves the set non-zero or unchanged; the event
handler, when a callback is registered, consumes the flag set, resets it to
zero, and invokes the callback exactly once with the consumed flags. -/
theorem C8_state_change_event (s : CtlState) (f : CtlFrame) :
    ((s.stateChangeFlags = 0 ∧
        (ReceiveControlFrame s f).stateChangeFlags ≠ 0) →
      (ReceiveControlFrame s f).stateChangeEventsPosted =
        s.stateChangeEventsPosted + 1) ∧
    ((s.stateChangeFlags ≠ 0 ∨
        (ReceiveControlFrame s f).stateChangeFlags = s.stateChangeFlags) →
      (ReceiveControlFrame s f).stateChangeEventsPosted =
        s.stateChangeEventsPosted) ∧
    (s.callbackRegistered = true →
      StateChangeEventHandler (ReceiveControlFrame s f) =
        ({ ReceiveControlFrame s f with stateChangeFlags := 0 },
          some (ReceiveControlFrame s f).stateChangeFlags)) := by
  refine ⟨?_, ?_, ?_⟩
  · rintro ⟨hz, hnz⟩
    rcases f with ⟨cmd, key, roleValue, parseOk, bufferAvailable⟩
    cases cmd <;> cases key <;> cases parseOk <;> cases bufferAvailable <;>
      simp_all [ReceiveControlFrame, OT_CHANGED_THREAD_ROLE,
        OT_CHANGED_IP6_ADDRESS_ADDED, OT_CHANGED_IP6_MULTICAST_SUBSRCRIBED]
  · intro hcase
    rcases f with ⟨cmd, key, roleValue, parseOk, bufferAvailable⟩
    rcases hcase with hnz | hsame <;>
      cases cmd <;> cases key <;> cases parseOk <;> cases bufferAvailable <;>
        simp_all [ReceiveControlFrame, OT_CHANGED_THREAD_ROLE,
          OT_CHANGED_IP6_ADDRESS_ADDED, OT_CHANGED_IP6_MULTICAST_SUBSRCRIBED] <;>
          split_ifs at hsame ⊢ <;> simp_all
  · intro hreg
    have hr : (ReceiveControlFrame s f).callbackRegistered = true := by
      rcases f with ⟨cmd, key, roleValue, parseOk, bufferAvailable⟩
      cases cmd <;> cases key <;> cases parseOk <;> cases bufferAvailable <;>
        simp_all [ReceiveControlFrame] <;> split_ifs <;> simp_all
    simp [StateChangeEventHandler, hr]

/-- Witness for C8: a role-change frame (router) arriving with zero pending
flags posts one state-changed event; the handler then consumes the flags. -/
theorem C8_state_change_event_witness :
    ((⟨0, .detached, true, 5, 0⟩ : CtlState).stateChangeFlags = 0 ∧
      (ReceiveControlFrame ⟨0, .detached, true, 5, 0⟩
          ⟨.propValueIs, .netRole, 2, true, true⟩).stateChangeFlags ≠ 0) ∧
    (ReceiveControlFrame ⟨0, .detached, true, 5, 0⟩
        ⟨.propValueIs, .netRole, 2, true, true⟩).stateChangeEventsPosted = 5 + 1 ∧
    StateChangeEventHandler (ReceiveControlFrame ⟨0, .detached, true, 5, 0⟩
        ⟨.propValueIs, .netRole, 2, true, true⟩) =
      ({ ReceiveControlFrame ⟨0, .detached, true, 5, 0⟩
          ⟨.propValueIs, .netRole, 2, true, true⟩ with stateChangeFlags := 0 },
        some (ReceiveControlFrame ⟨0, .detached, true, 5, 0⟩
          ⟨.propValueIs, .netRole, 2, true, true⟩).stateChangeFlags) :=
  ⟨by decide,
    (C8_state_change_event ⟨0, .detached, true, 5, 0⟩
      ⟨.propValueIs, .netRole, 2, true, true⟩).1 (by decide),
    (C8_state_change_event ⟨0, .detached, true, 5, 0⟩
      ⟨.propValueIs, .netRole, 2, true, true⟩).2.2 (by decide)⟩

/-- Witness for C10: a 5-byte version string written into a 4-byte buffer is
truncated to 3 bytes plus the terminator. -/
theorem C10_version_string_truncation_witness :
    ([79, 80, 81, 0] : List Nat).length ≤ 4 ∧
    ([79, 80, 81, 0] : List Nat).getLast? = some 0 ∧
    ([79, 80, 81, 0] : List Nat) =
      List.take (min ([79, 80, 81, 82, 83] : List Nat).length (4 - 1))
        [79, 80, 81, 82, 83] ++ [0] :=
  C10_version_string_truncation 4 [79, 80, 81, 82, 83] [79, 80, 81, 0]
    (by decide) (by decide)

/-- The dedup invariant holds initially. -/
theorem pumpInv_init : PumpInv initPump := by
  unfold PumpInv pend initPump
  decide

/-- Every atomic step of the dedup protocol preserves the invariant. -/
theorem pumpStep_inv {a b : PumpState} (hab : PumpStep a b) (ha : PumpInv a) :
    PumpInv b := by
  cases hab <;>
    · rcases ha with ⟨h1, h2, h3⟩
      refine ⟨?_, ?_, ?_⟩ <;>
        simp_all [PumpInv, pend, PosterPC.commit, HandlerPC.commit] <;>
          first
            | omega
            | (intro hx; exact h2 (by omega))
            | (exact ⟨h2 (by omega), by omega, by omega⟩)

/-- Every reachable state of the dedup protocol satisfies the invariant. -/
theorem pumpReachable_inv (s : PumpState) (h : PumpReachable s) : PumpInv s := by
  unfold PumpReachable at h
  induction h with
  | refl => exact pumpInv_init
  | tail h1 h2 ih => exact pumpStep_inv h2 ih

/-- Counterexample for claim C5: the state reached after the IP-stack poster
runs its test-and-set and post and the driver-task handler then dequeues the
event — but has not yet executed `sOutgoingIPPacketEventPosted = 0` — is
reachable, and in it the flag is set while no pump event is resident in the
mailbox: the claimed "flag set iff event resident at every instant" fails. -/
theorem C5_pump_flag_iff_resident_counterexample :
    PumpReachable ⟨true, 0, .idle, .idle, .clearFlag⟩ ∧
    ¬(((⟨true, 0, .idle, .idle, .clearFlag⟩ : PumpState).flag = true) ↔
        1 ≤ (⟨true, 0, .idle, .idle, .clearFlag⟩ : PumpState).mailbox) := by
  constructor
  · have s1 : PumpStep initPump ⟨true, 0, .deciding true, .idle, .idle⟩ :=
      PumpStep.lwipFetchOrClear 0 .idle .idle
    have s2 : PumpStep ⟨true, 0, .deciding true, .idle, .idle⟩
        ⟨true, 1, .idle, .idle, .idle⟩ :=
      PumpStep.lwipPost true 0 .idle .idle
    have s3 : PumpStep ⟨true, 1, .idle, .idle, .idle⟩
        ⟨true, 0, .idle, .idle, .clearFlag⟩ :=
      PumpStep.handlerDequeue true 0 .idle .idle
    exact Relation.ReflTransGen.head s1 (Relation.ReflTransGen.head s2
      (Relation.ReflTransGen.single s3))
  · decide

/-- Claim C5 as amended: in every reachable state of the dedup protocol the
driver-task mailbox holds at most one pump event, and whenever a pump event
is resident the pump-event-posted flag is set; the converse — the flag being
set implying an event is resident — fails only transiently, between a
poster's atomic test-and-set and its post and between the handler's dequeue
and its clearing of the flag. -/
theorem C5_pump_event_dedup (s : PumpState) (h : PumpReachable s) :
    s.mailbox ≤ 1 ∧ (1 ≤ s.mailbox → s.flag = true) := by
  have hi := pumpReachable_inv s h
  rcases hi with ⟨h1, h2, h3⟩
  unfold pend at h1 h2
  refine ⟨by omega, fun hm => h2 (by omega)⟩

/-- Witness for the amended C5, at the initial state. -/
theorem C5_pump_event_dedup_witness :
    initPump.mailbox ≤ 1 ∧ (1 ≤ initPump.mailbox → initPump.flag = true) :=
  C5_pump_event_dedup initPump Relation.ReflTransGen.refl

end Thci
